import Mathlib

/-!
Shallow embedding of `src/blockies.cpp` (a C++ transliteration of the
blockies identicon generator, whose `Number` struct emulates JavaScript
number semantics: a double carrying an exact integer, truncated to a
32-bit two's-complement value before and after every bitwise operation).

All `Number` values that arise in the program are exact integers, so they
are modelled as `Int`; the values returned by `generate()` are exact
dyadic rationals (an unsigned 32-bit numerator divided by 2^31), modelled
as `ℚ`.
-/

/-- The low 32 bits of an integer, as a natural number in `[0, 2^32)`.
This is `static_cast<int64_t>(m_value) & 0xFFFFFFFF` from the source. -/
def pat32 (v : Int) : Nat := (v % 4294967296).toNat

/-- Reinterpret the low 32 bits of `v` as a signed 32-bit value
(`static_cast<int32_t>(... & 0xFFFFFFFF)` from the source). -/
def toInt32 (v : Int) : Int :=
  if pat32 v < 2147483648 then (pat32 v : Int) else (pat32 v : Int) - 4294967296

/-- `Number::operator<<`: truncate to int32, shift left, keep 32 bits. -/
def jsShl (v : Int) (n : Nat) : Int := toInt32 (toInt32 v * 2 ^ n)

/-- `Number::operator>>`: truncate to int32, arithmetic (sign-propagating)
shift right.  For a positive power-of-two divisor, Lean's Euclidean `/`
rounds toward negative infinity, which is exactly the arithmetic shift. -/
def jsSar (v : Int) (n : Nat) : Int := toInt32 v / 2 ^ n

/-- `Number::operator^`: truncate both operands to 32 bits, XOR the bit
patterns, reinterpret as signed 32-bit. -/
def jsXor (a b : Int) : Int := toInt32 ((Nat.xor (pat32 a) (pat32 b) : Nat) : Int)

/-- `unsignedShiftRight(number, n)`: arithmetic shift, then reinterpret the
result as an unsigned 32-bit value (JavaScript `>>>`). -/
def unsignedShiftRight (v : Int) (n : Nat) : Int := jsSar v n % 4294967296

/-- The four 32-bit state words `[x, y, z, w]` of the Xorshift generator
(`m_seed` in the source).  After `seed()` the stored doubles may lie
outside the 32-bit range (the seeding update only truncates inside the
shift), so the fields are unconstrained integers. -/
structure RngState where
  s0 : Int
  s1 : Int
  s2 : Int
  s3 : Int
deriving DecidableEq, Repr

/-- The all-zero generator state. -/
def zeroState : RngState := ⟨0, 0, 0, 0⟩

/-- One seeding update: `((w << 5) - w) + c`.  The subtraction and the
addition are plain double arithmetic (no truncation); only the shift
truncates. -/
def seedStep (w : Int) (c : Nat) : Int := (jsShl w 5 - w) + c

/-- The seeding loop of `PseudorandomNumberGenerator::seed`, carrying the
character index `i`: character `c` updates word `i % 4`. -/
def seedLoop : List Nat → Nat → RngState → RngState
  | [], _, st => st
  | c :: rest, i, st =>
      let st' :=
        match i % 4 with
        | 0 => { st with s0 := seedStep st.s0 c }
        | 1 => { st with s1 := seedStep st.s1 c }
        | 2 => { st with s2 := seedStep st.s2 c }
        | _ => { st with s3 := seedStep st.s3 c }
      seedLoop rest (i + 1) st'

/-- `PseudorandomNumberGenerator::seed`: reset the state to zero, then fold
the seeding update over the character codes of the seed text. -/
def seed (text : List Nat) : RngState := seedLoop text 0 zeroState

/-- The temporary `t = x ^ (x << 11)` of `generate()`. -/
def tVal (st : RngState) : Int := jsXor st.s0 (jsShl st.s0 11)

/-- `PseudorandomNumberGenerator::generate`: advance the state and return
`unsignedShiftRight(w, 0) / unsignedShiftRight(1 << 31, 0)` as an exact
rational (division of an integer by 2^31 is exact in doubles). -/
def generate (st : RngState) : ℚ × RngState :=
  let t := tVal st
  let w := jsXor (jsXor (jsXor st.s3 (jsSar st.s3 19)) t) (jsSar t 8)
  ((unsignedShiftRight w 0 : ℚ) / (unsignedShiftRight (jsShl 1 31) 0 : ℚ),
   ⟨st.s1, st.s2, st.s3, w⟩)

/-- The value returned by one `generate()` call from state `st`. -/
def genValue (st : RngState) : ℚ := (generate st).1

/-- The state after one `generate()` call from state `st`. -/
def genState (st : RngState) : RngState := (generate st).2

/-- The state after `n` consecutive `generate()` calls. -/
def genSteps : Nat → RngState → RngState
  | 0, st => st
  | n + 1, st => genSteps n (genState st)

/-- The value returned by the `(i+1)`-th `generate()` call from `st`. -/
def nthDraw (i : Nat) (st : RngState) : ℚ := genValue (genSteps i st)


/-! ### Spec-side reference definitions

These definitions follow the wording of the specification (and of the
claims) rather than the source, to be compared with the embedded code. -/

/-- Logical (zero-filling) right shift on a 32-bit pattern. -/
def lsrPat (p : Nat) (n : Nat) : Nat := p / 2 ^ n

/-- Arithmetic (sign-propagating) right shift on a 32-bit pattern: the top
`n` bits of the result copy bit 31 of the input. -/
def sarPat (p : Nat) (n : Nat) : Nat :=
  if p < 2147483648 then p / 2 ^ n else p / 2 ^ n + (4294967296 - 2 ^ (32 - n))

/-- The new fourth state word of one `generate()` step as the claim states
it: `w XOR (w >>> 19) XOR t XOR (t >>> 8)` with `>>>` the logical
(zero-filling) right shift, all on 32-bit patterns. -/
def wordSpecLogical (st : RngState) : Nat :=
  let wp := pat32 st.s3
  let tp := pat32 (tVal st)
  Nat.xor (Nat.xor (Nat.xor wp (lsrPat wp 19)) tp) (lsrPat tp 8)

/-- The new fourth state word of one `generate()` step with the shifts read
as arithmetic (sign-propagating) shifts of the 32-bit truncated value, all
on 32-bit patterns. -/
def wordSpecArith (st : RngState) : Nat :=
  let wp := pat32 st.s3
  let tp := pat32 (tVal st)
  Nat.xor (Nat.xor (Nat.xor wp (sarPat wp 19)) tp) (sarPat tp 8)

/-- Reference seeding state: four unsigned 32-bit words. -/
structure RefState where
  r0 : Nat
  r1 : Nat
  r2 : Nat
  r3 : Nat
deriving DecidableEq, Repr

/-- Reference seeding update from the claim: multiply the previous word by
31, add the character code, truncate to 32 bits. -/
def refStep (w : Nat) (c : Nat) : Nat := (31 * w + c) % 4294967296

/-- Reference seeding loop: character `c` at index `i` updates word
`i mod 4` by `refStep`. -/
def refSeedLoop : List Nat → Nat → RefState → RefState
  | [], _, st => st
  | c :: rest, i, st =>
      let st' :=
        match i % 4 with
        | 0 => { st with r0 := refStep st.r0 c }
        | 1 => { st with r1 := refStep st.r1 c }
        | 2 => { st with r2 := refStep st.r2 c }
        | _ => { st with r3 := refStep st.r3 c }
      refSeedLoop rest (i + 1) st'

/-- Reference seeding from the claim: start from `[0,0,0,0]` and fold
`refStep` over the character codes. -/
def refSeed (text : List Nat) : RefState := refSeedLoop text 0 ⟨0, 0, 0, 0⟩

/-! ### Colors, bitmap and icon assembly -/

/-- A resolved color: either the caller-supplied string, passed through
unmodified, or a generated HSL triple.  `createColor` in the source
formats the triple as the string `"hsl(H,S%,L%)"`; the formatting is a
function of the triple, so color equality is equality of these values. -/
inductive ColorV where
  | given (s : String)
  | hsl (h : Int) (sat : ℚ) (light : ℚ)
deriving DecidableEq, Repr

/-- `createColor`: six RNG draws in the fixed order H, S, L1..L4.
`H = floor(rand() * 360)`, `S = rand() * 60 + 40`,
`L = (rand() + rand() + rand() + rand()) * 25`.  (All of these double
computations are exact: the numerators stay far below 2^53.) -/
def createColor (st : RngState) : ColorV × RngState :=
  let (r1, st1) := generate st
  let (r2, st2) := generate st1
  let (r3, st3) := generate st2
  let (r4, st4) := generate st3
  let (r5, st5) := generate st4
  let (r6, st6) := generate st5
  (.hsl ⌊r1 * 360⌋ (r2 * 60 + 40) ((r3 + r4 + r5 + r6) * 25), st6)

/-- One bitmap cell draw: `floor(rand() * 2.3)`, consuming one RNG step.
The literal `2.3` is modelled as the exact rational `23/10`; the double
rounding of the product cannot move it out of `[0, 4.6)`. -/
def drawCell (st : RngState) : Int × RngState :=
  let (v, st1) := generate st
  (⌊v * (23 / 10 : ℚ)⌋, st1)

/-- Draw `n` cells left to right, threading the RNG state. -/
def drawCells : Nat → RngState → List Int × RngState
  | 0, st => ([], st)
  | n + 1, st =>
      let (c, st1) := drawCell st
      let (rest, st2) := drawCells n st1
      (c :: rest, st2)

/-- One row of `createImageData`: draw `dw` cells, then append the reverse
of the first `mw` of them (`row.slice(0, mirrorWidth)` reversed and
concatenated). -/
def buildRow (dw mw : Nat) (st : RngState) : List Int × RngState :=
  let (cells, st1) := drawCells dw st
  (cells ++ (cells.take mw).reverse, st1)

/-- The row loop of `createImageData`: `h` rows, top to bottom. -/
def buildRows : Nat → Nat → Nat → RngState → List (List Int) × RngState
  | 0, _, _, st => ([], st)
  | h + 1, dw, mw, st =>
      let (row, st1) := buildRow dw mw st
      let (rest, st2) := buildRows h dw mw st1
      (row :: rest, st2)

/-- `createImageData(size)`: `size` rows with `dataWidth = ceil(size/2)`
drawn cells and `mirrorWidth = size - dataWidth` mirrored cells each.
For a positive integral `size` these are `(size+1)/2` and `size/2`; for
`size ≤ 0` no loop body ever executes and the data is empty, which the
`Int.toNat` conversions reproduce.  The source flattens the rows into one
row-major array; the row list carries the same data grouped by rows. -/
def createImageData (size : Int) (st : RngState) : List (List Int) × RngState :=
  buildRows size.toNat ((size.toNat + 1) / 2) (size.toNat / 2) st

/-- The options record of `createIcon`.  `none` models an absent (JS
`undefined`) field; the seed is the list of character codes of the seed
string. -/
structure IconOptions where
  size : Option Int := none
  scale : Option Int := none
  seed : Option (List Nat) := none
  color : Option String := none
  bgcolor : Option String := none
  spotcolor : Option String := none

/-- JavaScript `opts.x || d` for a numeric option: `0` is falsy. -/
def jsOrNum (v : Option Int) (d : Int) : Int :=
  match v with
  | some x => if x = 0 then d else x
  | none => d

/-- JavaScript truthiness for a string option: the empty string is falsy,
so `opts.x || e` falls through to `e` on both `undefined` and `""`. -/
def jsOrStr (v : Option String) : Option String :=
  match v with
  | some s => if s = "" then none else some s
  | none => none

/-- `opts.seed || floor(random() * 10^16).toString(16)`: an explicit
non-empty seed string is used as is; an absent or empty one is replaced by
a synthesized seed drawn from an external entropy source (modelled as the
`entropy` argument). -/
def resolveSeed (o : Option (List Nat)) (entropy : List Nat) : List Nat :=
  match o with
  | some cs => if cs = [] then entropy else cs
  | none => entropy

/-- `opts.color || createColor()`: an explicit non-empty color string is
passed through without consuming the RNG; otherwise a color is generated. -/
def resolveColor (o : Option String) (st : RngState) : ColorV × RngState :=
  match jsOrStr o with
  | some s => (.given s, st)
  | none => createColor st

/-- The color-resolution phase of `createIcon`: color, then bgcolor, then
spotcolor, in that fixed order, threading the shared RNG state. -/
def colorPhase (opts : IconOptions) (st : RngState) :
    (ColorV × ColorV × ColorV) × RngState :=
  let (color, st1) := resolveColor opts.color st
  let (bgcolor, st2) := resolveColor opts.bgcolor st1
  let (spotcolor, st3) := resolveColor opts.spotcolor st2
  ((color, bgcolor, spotcolor), st3)

/-- What `createIcon` hands to the renderer: the grid, the three resolved
colors and the scale (the renderer is an external collaborator). -/
structure Icon where
  grid : List (List Int)
  color : ColorV
  bgcolor : ColorV
  spotcolor : ColorV
  scale : Int
deriving DecidableEq, Repr

/-- `createIcon(opts)`: resolve size, scale and seed, re-seed the shared
generator (discarding its previous state `st0`), resolve the three colors
in order, build the image data, and return the icon together with the
generator state it leaves behind. -/
def createIcon (entropy : List Nat) (opts : IconOptions) (st0 : RngState) :
    Icon × RngState :=
  let size := jsOrNum opts.size 8
  let scale := jsOrNum opts.scale 4
  let seedText := resolveSeed opts.seed entropy
  let st1 := seed seedText
  let ((color, bgcolor, spotcolor), st2) := colorPhase opts st1
  let (imageData, st3) := createImageData size st2
  (⟨imageData, color, bgcolor, spotcolor, scale⟩, st3)


/-! ### Integer evaluation form of the bitmap pipeline

`Rat` arithmetic does not reduce in the kernel, so for concrete
evaluation we prove that each cell draw equals an integer computation:
`floor((p / 2^31) * (23/10)) = (23 * p) / 21474836480` with `p` the
unsigned 32-bit pattern of the new fourth word. -/

def drawCellN (st : RngState) : Int × RngState :=
  (((23 * pat32 ((genState st).s3)) / 21474836480 : Nat), genState st)

def drawCellsN : Nat → RngState → List Int × RngState
  | 0, st => ([], st)
  | n + 1, st =>
      let (c, st1) := drawCellN st
      let (rest, st2) := drawCellsN n st1
      (c :: rest, st2)

def buildRowsN : Nat → Nat → Nat → RngState → List (List Int) × RngState
  | 0, _, _, st => ([], st)
  | h + 1, dw, mw, st =>
      let (cells, st1) := drawCellsN dw st
      let (rest, st2) := buildRowsN h dw mw st1
      ((cells ++ (cells.take mw).reverse) :: rest, st2)

def createImageDataN (size : Int) (st : RngState) : List (List Int) × RngState :=
  buildRowsN size.toNat ((size.toNat + 1) / 2) (size.toNat / 2) st

/-- The number of RNG draws a color option consumes: 6 when it has to be
generated (absent or empty string), 0 when supplied. -/
def colorDraws (o : Option String) : Nat := if jsOrStr o = none then 6 else 0

/-- An options record supplying `size = 0`, an explicit seed and all three
colors, used to exhibit the silent size substitution. -/
def sizeZeroOpts : IconOptions :=
  { size := some 0, seed := some [97], color := some "red",
    bgcolor := some "white", spotcolor := some "blue" }


/-! ### Arithmetic lemmas about the 32-bit truncation -/

theorem pat32_lt (v : Int) : pat32 v < 4294967296 := by
  unfold pat32; omega

theorem pat32_cast (v : Int) : (pat32 v : Int) = v % 4294967296 := by
  unfold pat32; omega

theorem toInt32_emod (v : Int) : toInt32 v % 4294967296 = v % 4294967296 := by
  unfold toInt32 pat32; split <;> omega

theorem pat32_toInt32 (v : Int) : pat32 (toInt32 v) = pat32 v := by
  unfold toInt32 pat32; split <;> omega

theorem pat32_natCast {m : Nat} (h : m < 4294967296) : pat32 (m : Int) = m := by
  unfold pat32; omega

theorem pat32_jsXor (a b : Int) : pat32 (jsXor a b) = Nat.xor (pat32 a) (pat32 b) := by
  unfold jsXor
  rw [pat32_toInt32]
  exact pat32_natCast (by
    have h : (4294967296 : Nat) = 2 ^ 32 := by norm_num
    rw [h]
    exact Nat.xor_lt_two_pow (h ▸ pat32_lt a) (h ▸ pat32_lt b))

theorem pat32_jsSar_19 (v : Int) : pat32 (jsSar v 19) = sarPat (pat32 v) 19 := by
  unfold jsSar sarPat toInt32 pat32
  norm_num
  split <;> omega

theorem pat32_jsSar_8 (v : Int) : pat32 (jsSar v 8) = sarPat (pat32 v) 8 := by
  unfold jsSar sarPat toInt32 pat32
  norm_num
  split <;> omega

theorem pat32_seedStep (w : Int) (c : Nat) :
    pat32 (seedStep w c) = refStep (pat32 w) c := by
  have ha := toInt32_emod w
  have hb := toInt32_emod (toInt32 w * 32)
  unfold seedStep jsShl refStep pat32
  norm_num
  omega

/-! ### Facts about generate() -/

theorem ushr_zero (v : Int) : unsignedShiftRight v 0 = (pat32 v : Int) := by
  have h := toInt32_emod v
  have h2 := pat32_cast v
  unfold unsignedShiftRight jsSar
  norm_num
  omega

theorem ushr_denominator : unsignedShiftRight (jsShl 1 31) 0 = 2147483648 := by decide

theorem genValue_eq (st : RngState) :
    genValue st = ((pat32 (genState st).s3 : Nat) : ℚ) / 2147483648 := by
  show (unsignedShiftRight ((genState st).s3) 0 : ℚ) /
      (unsignedShiftRight (jsShl 1 31) 0 : ℚ) = _
  rw [ushr_zero, ushr_denominator]
  push_cast
  norm_num

theorem genValue_nonneg (st : RngState) : 0 ≤ genValue st := by
  rw [genValue_eq]; positivity

theorem genValue_lt_two (st : RngState) : genValue st < 2 := by
  rw [genValue_eq, div_lt_iff (by norm_num)]
  have h := pat32_lt (genState st).s3
  have h2 : ((pat32 (genState st).s3 : Nat) : ℚ) < 4294967296 := by exact_mod_cast h
  linarith

/-- C3: for every seed string and every number of prior `generate()` calls,
the value returned by `generate()` equals the final state word interpreted
as an unsigned 32-bit integer divided by 2^31, and lies in `[0, 2)`. -/
theorem generate_range (cs : List Nat) (n : Nat) :
    genValue (genSteps n (seed cs)) =
      ((pat32 ((genState (genSteps n (seed cs))).s3) : Nat) : ℚ) / 2147483648 ∧
    0 ≤ genValue (genSteps n (seed cs)) ∧ genValue (genSteps n (seed cs)) < 2 :=
  ⟨genValue_eq _, genValue_nonneg _, genValue_lt_two _⟩

/-- C2 (amended): in every `generate()` step the new fourth state word is
`w XOR (w >> 19) XOR t XOR (t >> 8)` where `>>` is the arithmetic
(sign-propagating) right shift of the 32-bit truncated value. -/
theorem generate_word_arith_shift (st : RngState) :
    pat32 ((genState st).s3) = wordSpecArith st := by
  show pat32 (jsXor (jsXor (jsXor st.s3 (jsSar st.s3 19)) (tVal st)) (jsSar (tVal st) 8)) = _
  rw [pat32_jsXor, pat32_jsXor, pat32_jsXor, pat32_jsSar_19, pat32_jsSar_8]
  rfl

set_option maxRecDepth 100000 in
/-- C2 counterexample: after seeding with `"a"` and 13 `generate()` calls,
the next step's new fourth word differs from the claim's formula with
logical (zero-filling) shifts: the temporary `t` has bit 31 set, so the
sign-propagating shift the code performs fills the top 8 bits with ones. -/
theorem generate_word_logical_shift_counterexample :
    pat32 ((genState (genSteps 13 (seed [97]))).s3) ≠
      wordSpecLogical (genSteps 13 (seed [97])) := by decide

/-- C5: seeding with the empty string leaves the state `[0,0,0,0]`, and
every subsequent `generate()` call returns exactly `0` while the state
remains all-zero. -/
theorem empty_seed_zero :
    seed [] = zeroState ∧
    ∀ n : Nat, genSteps n zeroState = zeroState ∧ genValue (genSteps n zeroState) = 0 := by
  have h1 : genState zeroState = zeroState := by decide
  have h0 : ∀ n, genSteps n zeroState = zeroState := by
    intro n
    induction n with
    | zero => rfl
    | succ k ih =>
        show genSteps k (genState zeroState) = zeroState
        rw [h1]; exact ih
  refine ⟨rfl, fun n => ⟨h0 n, ?_⟩⟩
  rw [h0, genValue_eq, show pat32 ((genState zeroState).s3) = 0 from by decide]
  norm_num

/-! ### The seeding refinement (C4) -/

theorem seedLoop_pat32 (cs : List Nat) :
    ∀ (i : Nat) (st : RngState) (rst : RefState),
    pat32 st.s0 = rst.r0 → pat32 st.s1 = rst.r1 →
    pat32 st.s2 = rst.r2 → pat32 st.s3 = rst.r3 →
    pat32 (seedLoop cs i st).s0 = (refSeedLoop cs i rst).r0 ∧
    pat32 (seedLoop cs i st).s1 = (refSeedLoop cs i rst).r1 ∧
    pat32 (seedLoop cs i st).s2 = (refSeedLoop cs i rst).r2 ∧
    pat32 (seedLoop cs i st).s3 = (refSeedLoop cs i rst).r3 := by
  induction cs with
  | nil => intro i st rst h0 h1 h2 h3; exact ⟨h0, h1, h2, h3⟩
  | cons c rest ih =>
      intro i st rst h0 h1 h2 h3
      have h4 : i % 4 = 0 ∨ i % 4 = 1 ∨ i % 4 = 2 ∨ i % 4 = 3 := by omega
      rcases h4 with h | h | h | h <;>
        · show
            pat32 (seedLoop rest (i + 1) _).s0 = (refSeedLoop rest (i + 1) _).r0 ∧ _
          simp only [seedLoop, refSeedLoop, h]
          exact ih (i + 1) _ _
            (by simp [h0, h1, h2, h3, pat32_seedStep])
            (by simp [h0, h1, h2, h3, pat32_seedStep])
            (by simp [h0, h1, h2, h3, pat32_seedStep])
            (by simp [h0, h1, h2, h3, pat32_seedStep])

/-- C4: the state produced by `seed(text)` agrees, word by word and modulo
2^32, with the reference seeding that multiplies the previous word by 31
and adds the character code: `((s << 5) - s) + c ≡ 31*s + c (mod 2^32)`. -/
theorem seed_refines_multiply31 (cs : List Nat) :
    pat32 (seed cs).s0 = (refSeed cs).r0 ∧
    pat32 (seed cs).s1 = (refSeed cs).r1 ∧
    pat32 (seed cs).s2 = (refSeed cs).r2 ∧
    pat32 (seed cs).s3 = (refSeed cs).r3 :=
  seedLoop_pat32 cs 0 zeroState ⟨0, 0, 0, 0⟩ rfl rfl rfl rfl

theorem drawCell_eq_drawCellN (st : RngState) : drawCell st = drawCellN st := by
  have e0 : drawCell st = (⌊genValue st * (23 / 10 : ℚ)⌋, genState st) := rfl
  have h3 : genValue st * (23 / 10 : ℚ) =
      (((23 * pat32 ((genState st).s3) : Nat) : Int) : ℚ) / ((21474836480 : Nat) : ℚ) := by
    rw [genValue_eq]
    push_cast
    ring
  have h4 : ⌊genValue st * (23 / 10 : ℚ)⌋ =
      ((23 * pat32 ((genState st).s3) : Nat) : Int) / ((21474836480 : Nat) : Int) := by
    rw [h3, Rat.floor_intCast_div_natCast]
  rw [e0, h4, ← Int.natCast_div]
  rfl

theorem drawCells_eq_N (n : Nat) : ∀ st : RngState, drawCells n st = drawCellsN n st := by
  induction n with
  | zero => intro st; rfl
  | succ k ih =>
      intro st
      have e1 : drawCells (k + 1) st =
          ((drawCell st).1 :: (drawCells k (drawCell st).2).1,
            (drawCells k (drawCell st).2).2) := rfl
      have e2 : drawCellsN (k + 1) st =
          ((drawCellN st).1 :: (drawCellsN k (drawCellN st).2).1,
            (drawCellsN k (drawCellN st).2).2) := rfl
      rw [e1, e2, drawCell_eq_drawCellN, ih]

theorem buildRows_eq_N (h : Nat) : ∀ (dw mw : Nat) (st : RngState),
    buildRows h dw mw st = buildRowsN h dw mw st := by
  induction h with
  | zero => intro dw mw st; rfl
  | succ k ih =>
      intro dw mw st
      have e1 : buildRows (k + 1) dw mw st =
          ((buildRow dw mw st).1 :: (buildRows k dw mw (buildRow dw mw st).2).1,
            (buildRows k dw mw (buildRow dw mw st).2).2) := rfl
      have e2 : buildRowsN (k + 1) dw mw st =
          (((drawCellsN dw st).1 ++ ((drawCellsN dw st).1.take mw).reverse) ::
            (buildRowsN k dw mw (drawCellsN dw st).2).1,
            (buildRowsN k dw mw (drawCellsN dw st).2).2) := rfl
      have e3 : buildRow dw mw st =
          ((drawCells dw st).1 ++ ((drawCells dw st).1.take mw).reverse,
            (drawCells dw st).2) := rfl
      rw [e1, e2, e3, drawCells_eq_N, ih]

theorem createImageData_eq_N (size : Int) (st : RngState) :
    createImageData size st = createImageDataN size st :=
  buildRows_eq_N _ _ _ _

/-- The grid of a built icon, expressed through the integer evaluation
form: the bitmap is built from the state left by the color phase over the
freshly seeded generator. -/
theorem createIcon_grid_eval (e : List Nat) (opts : IconOptions) (st0 : RngState) :
    (createIcon e opts st0).1.grid =
      (createImageDataN (jsOrNum opts.size 8)
        ((colorPhase opts (seed (resolveSeed opts.seed e))).2)).1 := by
  show (createImageData (jsOrNum opts.size 8)
      ((colorPhase opts (seed (resolveSeed opts.seed e))).2)).1 = _
  rw [createImageData_eq_N]

/-! ### Shape of the image data (C6, C8) -/

theorem drawCells_fst_length (n : Nat) : ∀ st : RngState, ((drawCells n st).1).length = n := by
  induction n with
  | zero => intro st; rfl
  | succ k ih =>
      intro st
      have e1 : drawCells (k + 1) st =
          ((drawCell st).1 :: (drawCells k (drawCell st).2).1,
            (drawCells k (drawCell st).2).2) := rfl
      rw [e1]
      simp [ih]

theorem drawCells_mem (n : Nat) :
    ∀ (st : RngState) (c : Int), c ∈ (drawCells n st).1 → ∃ st', c = (drawCell st').1 := by
  induction n with
  | zero => intro st c hc; simp [drawCells] at hc
  | succ k ih =>
      intro st c hc
      have e1 : drawCells (k + 1) st =
          ((drawCell st).1 :: (drawCells k (drawCell st).2).1,
            (drawCells k (drawCell st).2).2) := rfl
      rw [e1] at hc
      rcases List.mem_cons.mp hc with h | h
      · exact ⟨st, h⟩
      · exact ih _ _ h

theorem buildRow_fst (dw mw : Nat) (st : RngState) :
    (buildRow dw mw st).1 =
      (drawCells dw st).1 ++ ((drawCells dw st).1.take mw).reverse := rfl

theorem buildRow_length (dw mw : Nat) (st : RngState) (h : mw ≤ dw) :
    ((buildRow dw mw st).1).length = dw + mw := by
  rw [buildRow_fst]
  simp [drawCells_fst_length, h, Nat.min_eq_left]

theorem buildRow_mirror (dw mw : Nat) (st : RngState) (h : mw ≤ dw) :
    ((buildRow dw mw st).1).drop dw = (((buildRow dw mw st).1).take mw).reverse := by
  rw [buildRow_fst]
  have hlen : ((drawCells dw st).1).length = dw := drawCells_fst_length dw st
  rw [List.drop_left' hlen, List.take_append_of_le_length (by rw [hlen]; exact h)]

theorem buildRow_cells_mem (dw mw : Nat) (st : RngState) (c : Int)
    (hc : c ∈ (buildRow dw mw st).1) : c ∈ (drawCells dw st).1 := by
  rw [buildRow_fst] at hc
  rcases List.mem_append.mp hc with h | h
  · exact h
  · exact List.take_subset _ _ (List.mem_reverse.mp h)

theorem buildRows_fst_length (h : Nat) :
    ∀ (dw mw : Nat) (st : RngState), ((buildRows h dw mw st).1).length = h := by
  induction h with
  | zero => intro dw mw st; rfl
  | succ k ih =>
      intro dw mw st
      have e1 : buildRows (k + 1) dw mw st =
          ((buildRow dw mw st).1 :: (buildRows k dw mw (buildRow dw mw st).2).1,
            (buildRows k dw mw (buildRow dw mw st).2).2) := rfl
      rw [e1]
      simp [ih]

theorem buildRows_mem (h : Nat) :
    ∀ (dw mw : Nat) (st : RngState) (row : List Int),
      row ∈ (buildRows h dw mw st).1 → ∃ st', row = (buildRow dw mw st').1 := by
  induction h with
  | zero => intro dw mw st row hrow; simp [buildRows] at hrow
  | succ k ih =>
      intro dw mw st row hrow
      have e1 : buildRows (k + 1) dw mw st =
          ((buildRow dw mw st).1 :: (buildRows k dw mw (buildRow dw mw st).2).1,
            (buildRows k dw mw (buildRow dw mw st).2).2) := rfl
      rw [e1] at hrow
      rcases List.mem_cons.mp hrow with hh | hh
      · exact ⟨st, hh⟩
      · exact ih _ _ _ _ hh

theorem ceil_half_int (size : Int) (h : 0 < size) :
    ⌈(size : ℚ) / 2⌉.toNat = (size.toNat + 1) / 2 := by
  have hf : ⌊-((size : ℚ) / 2)⌋ = -⌈(size : ℚ) / 2⌉ := Int.floor_neg
  have h2 : (((-size : Int) : ℚ) / ((2 : Nat) : ℚ)) = -((size : ℚ) / 2) := by push_cast; ring
  have h3 : ⌊(((-size : Int) : ℚ) / ((2 : Nat) : ℚ))⌋ = (-size) / ((2 : Nat) : Int) :=
    Rat.floor_intCast_div_natCast _ _
  rw [h2, hf] at h3
  omega

/-- C6: every row of the grid built by `createImageData` for a positive
`size` has length `size`; its last `mirrorWidth` cells are the reverse of
its first `mirrorWidth` cells, where `mirrorWidth = size - ceil(size/2)`;
and the row is exactly `dataWidth = ceil(size/2)` drawn cells followed by
the reversed first-`mirrorWidth`-cell prefix. -/
theorem createImageData_mirror (size : Int) (hsize : 0 < size) (st : RngState)
    (row : List Int) (hrow : row ∈ (createImageData size st).1) :
    row.length = size.toNat ∧
    row.drop (size.toNat - (size.toNat - ⌈(size : ℚ) / 2⌉.toNat)) =
      (row.take (size.toNat - ⌈(size : ℚ) / 2⌉.toNat)).reverse ∧
    ∃ st', row =
      (drawCells (⌈(size : ℚ) / 2⌉.toNat) st').1 ++
        ((drawCells (⌈(size : ℚ) / 2⌉.toNat) st').1.take
          (size.toNat - ⌈(size : ℚ) / 2⌉.toNat)).reverse := by
  have hdw : ⌈(size : ℚ) / 2⌉.toNat = (size.toNat + 1) / 2 := ceil_half_int size hsize
  have hmw : size.toNat - ⌈(size : ℚ) / 2⌉.toNat = size.toNat / 2 := by
    rw [hdw]; omega
  have hle : size.toNat / 2 ≤ (size.toNat + 1) / 2 := by omega
  obtain ⟨st', hst'⟩ := buildRows_mem _ _ _ _ _ hrow
  refine ⟨?_, ?_, ?_⟩
  · rw [hst', buildRow_length _ _ _ hle]
    omega
  · rw [hmw, hst', show size.toNat - size.toNat / 2 = (size.toNat + 1) / 2 from by omega]
    exact buildRow_mirror _ _ _ hle
  · refine ⟨st', ?_⟩
    rw [hdw, show size.toNat - (size.toNat + 1) / 2 = size.toNat / 2 from by omega,
      hst', buildRow_fst]

/-- C6 witness: instantiated at `size = 3` from the all-zero state, for the
concrete row `[0, 0, 0]`. -/
theorem createImageData_mirror_witness :
    (0 : Int) < 3 ∧ ([0, 0, 0] : List Int) ∈ (createImageData 3 zeroState).1 ∧
    (([0, 0, 0] : List Int).length = (3 : Int).toNat ∧
      ([0, 0, 0] : List Int).drop
          ((3 : Int).toNat - ((3 : Int).toNat - ⌈((3 : Int) : ℚ) / 2⌉.toNat)) =
        (([0, 0, 0] : List Int).take ((3 : Int).toNat - ⌈((3 : Int) : ℚ) / 2⌉.toNat)).reverse ∧
      ∃ st', ([0, 0, 0] : List Int) =
        (drawCells (⌈((3 : Int) : ℚ) / 2⌉.toNat) st').1 ++
          ((drawCells (⌈((3 : Int) : ℚ) / 2⌉.toNat) st').1.take
            ((3 : Int).toNat - ⌈((3 : Int) : ℚ) / 2⌉.toNat)).reverse) :=
  ⟨by norm_num,
   by rw [createImageData_eq_N]; decide,
   createImageData_mirror 3 (by norm_num) zeroState [0, 0, 0]
     (by rw [createImageData_eq_N]; decide)⟩

theorem drawCell_fst (st : RngState) :
    (drawCell st).1 = ⌊genValue st * (23 / 10 : ℚ)⌋ := rfl

theorem drawCell_snd (st : RngState) : (drawCell st).2 = genState st := rfl

theorem drawCell_range (st : RngState) : 0 ≤ (drawCell st).1 ∧ (drawCell st).1 ≤ 4 := by
  rw [drawCell_fst]
  constructor
  · exact Int.floor_nonneg.mpr (mul_nonneg (genValue_nonneg st) (by norm_num))
  · have h1 : genValue st * (23 / 10 : ℚ) < 5 := by
      have h2 := genValue_lt_two st
      nlinarith
    have h3 : ⌊genValue st * (23 / 10 : ℚ)⌋ < 5 := Int.floor_lt.mpr (by exact_mod_cast h1)
    omega

/-- C8: every drawn grid cell value is `floor(rng.generate() * 2.3)`, each
draw consuming exactly one RNG step, and every cell of every built grid is
an integer in `{0, 1, 2, 3, 4}`. -/
theorem cell_value_range (st : RngState) (size : Int) (st0 : RngState)
    (row : List Int) (c : Int)
    (hrow : row ∈ (createImageData size st0).1) (hc : c ∈ row) :
    drawCell st = (⌊genValue st * (23 / 10 : ℚ)⌋, genState st) ∧
    0 ≤ c ∧ c ≤ 4 := by
  refine ⟨rfl, ?_⟩
  obtain ⟨st1, hst1⟩ := buildRows_mem _ _ _ _ _ hrow
  rw [hst1] at hc
  obtain ⟨st2, hst2⟩ := drawCells_mem _ _ _ (buildRow_cells_mem _ _ _ _ hc)
  rw [hst2]
  exact drawCell_range st2

/-- C8 witness: instantiated for the cell `0` of the row `[0, 0]` of the
grid built from the all-zero state at size 2. -/
theorem cell_value_range_witness :
    ([0, 0] : List Int) ∈ (createImageData 2 zeroState).1 ∧ (0 : Int) ∈ ([0, 0] : List Int) ∧
    (drawCell zeroState = (⌊genValue zeroState * (23 / 10 : ℚ)⌋, genState zeroState) ∧
      0 ≤ (0 : Int) ∧ (0 : Int) ≤ 4) :=
  ⟨by rw [createImageData_eq_N]; decide, by decide,
   cell_value_range zeroState 2 zeroState [0, 0] 0
     (by rw [createImageData_eq_N]; decide) (by decide)⟩

/-! ### RNG consumption of the color phase (C7) -/

theorem genSteps_add (m n : Nat) : ∀ st : RngState, genSteps (m + n) st = genSteps n (genSteps m st) := by
  induction m with
  | zero => intro st; rw [Nat.zero_add]; rfl
  | succ k ih =>
      intro st
      have e1 : genSteps (k + 1 + n) st = genSteps (k + n) (genState st) := by
        rw [show k + 1 + n = (k + n) + 1 from by omega]
        rfl
      rw [e1, ih]
      rfl

theorem genSteps_zero (st : RngState) : genSteps 0 st = st := rfl

theorem createColor_snd (st : RngState) : (createColor st).2 = genSteps 6 st := rfl

theorem createColor_fst (st : RngState) :
    (createColor st).1 =
      ColorV.hsl ⌊nthDraw 0 st * 360⌋ (nthDraw 1 st * 60 + 40)
        ((nthDraw 2 st + nthDraw 3 st + nthDraw 4 st + nthDraw 5 st) * 25) := rfl

/-- C7: with all three colors unspecified, `createIcon` consumes exactly 18
RNG draws for colors (6 per color, in order color, bgcolor, spotcolor,
each in draw order H, S, L1..L4) before the first bitmap draw; supplying
any subset of colors skips exactly that subset's six draws and preserves
the order of the remaining ones. -/
theorem color_consumption_order (opts : IconOptions) (st : RngState) :
    (∀ s : RngState, createColor s =
      (ColorV.hsl ⌊nthDraw 0 s * 360⌋ (nthDraw 1 s * 60 + 40)
        ((nthDraw 2 s + nthDraw 3 s + nthDraw 4 s + nthDraw 5 s) * 25), genSteps 6 s)) ∧
    (colorPhase opts st).2 =
      genSteps (colorDraws opts.color + colorDraws opts.bgcolor + colorDraws opts.spotcolor) st ∧
    (jsOrStr opts.color = none → (colorPhase opts st).1.1 = (createColor st).1) ∧
    (jsOrStr opts.bgcolor = none →
      (colorPhase opts st).1.2.1 = (createColor (genSteps (colorDraws opts.color) st)).1) ∧
    (jsOrStr opts.spotcolor = none →
      (colorPhase opts st).1.2.2 =
        (createColor (genSteps (colorDraws opts.color + colorDraws opts.bgcolor) st)).1) ∧
    (∀ (e : List Nat) (st0 : RngState),
      (createIcon e opts st0).1.grid =
        (createImageData (jsOrNum opts.size 8)
          (genSteps (colorDraws opts.color + colorDraws opts.bgcolor + colorDraws opts.spotcolor)
            (seed (resolveSeed opts.seed e)))).1) := by
  have hphase : ∀ st' : RngState, (colorPhase opts st').2 =
      genSteps (colorDraws opts.color + colorDraws opts.bgcolor + colorDraws opts.spotcolor) st' ∧
      (jsOrStr opts.color = none → (colorPhase opts st').1.1 = (createColor st').1) ∧
      (jsOrStr opts.bgcolor = none →
        (colorPhase opts st').1.2.1 = (createColor (genSteps (colorDraws opts.color) st')).1) ∧
      (jsOrStr opts.spotcolor = none →
        (colorPhase opts st').1.2.2 =
          (createColor (genSteps (colorDraws opts.color + colorDraws opts.bgcolor) st')).1) := by
    intro st'
    unfold colorPhase resolveColor colorDraws
    cases h1 : jsOrStr opts.color <;> cases h2 : jsOrStr opts.bgcolor <;>
      cases h3 : jsOrStr opts.spotcolor <;>
        simp [createColor_snd, ← genSteps_add, genSteps_zero]
  refine ⟨fun s => ?_, (hphase st).1, (hphase st).2.1, (hphase st).2.2.1, (hphase st).2.2.2,
    fun e st0 => ?_⟩
  · rw [Prod.ext_iff]
    exact ⟨createColor_fst s, createColor_snd s⟩
  · show (createImageData (jsOrNum opts.size 8)
        ((colorPhase opts (seed (resolveSeed opts.seed e))).2)).1 = _
    rw [(hphase (seed (resolveSeed opts.seed e))).1]

/-- C7 witness: instantiated for an options record with an explicit color,
a generated bgcolor and a generated spotcolor, over the generator seeded
with `"a"`: the color phase consumes exactly 12 draws. -/
theorem color_consumption_order_witness :
    (jsOrStr (some "red") ≠ none) ∧
    jsOrStr (none : Option String) = none ∧
    (colorPhase { color := some "red", seed := some [97] } (seed [97])).2 =
      genSteps 12 (seed [97]) ∧
    (colorPhase { color := some "red", seed := some [97] } (seed [97])).1.2.1 =
      (createColor (genSteps 0 (seed [97]))).1 := by
  have h := color_consumption_order { color := some "red", seed := some [97] } (seed [97])
  refine ⟨by decide, rfl, ?_, h.2.2.2.1 rfl⟩
  have h2 := h.2.1
  norm_num [colorDraws, jsOrStr] at h2
  exact h2

/-! ### Determinism of createIcon (C1) and option resolution (C9, C10) -/

/-- C1 (amended): for every options record containing an explicit
*non-empty* seed string, the icon `createIcon` builds — bitmap grid and
all three resolved colors — does not depend on the entropy source or on
the generator state left by earlier calls: two calls with identical
options yield identical results. -/
theorem createIcon_deterministic (opts : IconOptions) (cs : List Nat)
    (h : opts.seed = some cs) (hne : cs ≠ []) (e1 e2 : List Nat)
    (r1 r2 : RngState) :
    (createIcon e1 opts r1).1 = (createIcon e2 opts r2).1 := by
  have hs : ∀ e : List Nat, resolveSeed opts.seed e = cs := by
    intro e
    rw [h]
    simp [resolveSeed, hne]
  unfold createIcon
  rw [hs e1, hs e2]

/-- C1 witness: two calls with the explicit seed `"a"`, different entropy
and different left-over generator states produce the same icon. -/
theorem createIcon_deterministic_witness :
    ({ seed := some [97], size := some 2 } : IconOptions).seed = some [97] ∧
    ([97] : List Nat) ≠ [] ∧
    (createIcon [1] { seed := some [97], size := some 2 } zeroState).1 =
      (createIcon [2, 3] { seed := some [97], size := some 2 } ⟨5, 6, 7, 8⟩).1 :=
  ⟨rfl, by decide,
   createIcon_deterministic { seed := some [97], size := some 2 } [97] rfl (by decide)
     [1] [2, 3] zeroState ⟨5, 6, 7, 8⟩⟩

set_option maxRecDepth 200000 in
/-- C1 counterexample: an options record whose explicit seed is the empty
string is *not* deterministic — `opts.seed || ...` treats `""` as falsy,
so the synthesized entropy seed is used instead: entropy `"a"` and
entropy `"P"` give different bitmap grids for the same options. -/
theorem createIcon_empty_seed_counterexample :
    (createIcon [97] { size := some 1, seed := some [] } zeroState).1.grid ≠
      (createIcon [80] { size := some 1, seed := some [] } zeroState).1.grid := by
  rw [createIcon_grid_eval, createIcon_grid_eval]
  decide

theorem createImageData_shape (n : Nat) (st : RngState) :
    ((createImageData (n : Int) st).1).length = n ∧
    ((createImageData (n : Int) st).1).map List.length = List.replicate n n := by
  have hn : ((n : Int)).toNat = n := Int.toNat_ofNat n
  constructor
  · show ((buildRows ((n : Int)).toNat _ _ st).1).length = n
    rw [hn, buildRows_fst_length]
  · rw [List.eq_replicate_iff]
    constructor
    · show (List.map _ ((buildRows ((n : Int)).toNat _ _ st).1)).length = n
      rw [List.length_map, hn, buildRows_fst_length]
    · intro b hb
      obtain ⟨row, hrow, hlen⟩ := List.mem_map.mp hb
      have hrow2 : row ∈ (createImageData (n : Int) st).1 := hrow
      obtain ⟨st', hst'⟩ := buildRows_mem _ _ _ _ _ hrow2
      rw [← hlen, hst', buildRow_length _ _ _ (by omega)]
      show (((n : Int)).toNat + 1) / 2 + ((n : Int)).toNat / 2 = n
      rw [hn]
      omega

/-- C9 (amended): `createIcon` performs no validation of `size ≤ 0` and
signals no invalid-argument condition.  A supplied `size` of `0` is falsy,
so the default `8` silently replaces it and an 8×8 grid is produced; a
negative `size` is truthy, is used as is, and yields an empty grid. -/
theorem createIcon_size_nonpositive (e : List Nat) (opts : IconOptions)
    (st0 : RngState) (sz : Int) (h : opts.size = some sz) (hle : sz ≤ 0) :
    (sz = 0 →
      ((createIcon e opts st0).1.grid).length = 8 ∧
      ((createIcon e opts st0).1.grid).map List.length = List.replicate 8 8) ∧
    (sz < 0 → (createIcon e opts st0).1.grid = []) := by
  have hgrid : (createIcon e opts st0).1.grid =
      (createImageData (jsOrNum opts.size 8)
        ((colorPhase opts (seed (resolveSeed opts.seed e))).2)).1 := rfl
  constructor
  · intro h0
    have h8 : jsOrNum opts.size 8 = 8 := by rw [h, h0]; rfl
    rw [hgrid, h8]
    exact createImageData_shape 8 _
  · intro hneg
    have hsz : jsOrNum opts.size 8 = sz := by
      rw [h]
      simp [jsOrNum]
      omega
    rw [hgrid, hsz]
    show (buildRows sz.toNat _ _ _).1 = []
    rw [Int.toNat_eq_zero.mpr hle]
    rfl

/-- C9 witness: instantiated at `size = 0` (default substituted, 8×8 grid)
and, separately below, checked at a negative size by the amended theorem's
second conjunct. -/
theorem createIcon_size_nonpositive_witness :
    ({ size := some 0, seed := some [99] } : IconOptions).size = some 0 ∧ (0 : Int) ≤ 0 ∧
    (((0 : Int) = 0 →
      ((createIcon [] { size := some 0, seed := some [99] } zeroState).1.grid).length = 8 ∧
      ((createIcon [] { size := some 0, seed := some [99] } zeroState).1.grid).map List.length =
        List.replicate 8 8) ∧
    ((0 : Int) < 0 →
      (createIcon [] { size := some 0, seed := some [99] } zeroState).1.grid = [])) :=
  ⟨rfl, le_refl 0,
   createIcon_size_nonpositive [] { size := some 0, seed := some [99] } zeroState 0 rfl (le_refl 0)⟩

set_option maxRecDepth 200000 in
/-- C9 counterexample: the claim that `createIcon` fails fast on
`size ≤ 0` is false — with `size = 0` supplied, it silently substitutes
the default and returns a well-formed 8×8 grid (there is no error path in
the source at all). -/
theorem createIcon_size_zero_counterexample :
    ((createIcon [] sizeZeroOpts zeroState).1.grid).map List.length = List.replicate 8 8 := by
  rw [createIcon_grid_eval]
  decide

/-- C10: a supplied `size` of `0` (and likewise a `scale` of `0`) is falsy
under `opts.size || 8` / `opts.scale || 4`, so the defaults silently
replace them: `createIcon` proceeds, produces an 8×8 grid and reports
scale 4, and option resolution has no error path. -/
theorem size_scale_falsy_defaults (e : List Nat) (opts : IconOptions)
    (st0 : RngState) (h : opts.size = some 0) (hsc : opts.scale = some 0) :
    jsOrNum opts.size 8 = 8 ∧ jsOrNum opts.scale 4 = 4 ∧
    (createIcon e opts st0).1.scale = 4 ∧
    ((createIcon e opts st0).1.grid).length = 8 ∧
    ((createIcon e opts st0).1.grid).map List.length = List.replicate 8 8 := by
  have h8 : jsOrNum opts.size 8 = 8 := by rw [h]; rfl
  have h4 : jsOrNum opts.scale 4 = 4 := by rw [hsc]; rfl
  have hscale : (createIcon e opts st0).1.scale = jsOrNum opts.scale 4 := rfl
  have hgrid : (createIcon e opts st0).1.grid =
      (createImageData (jsOrNum opts.size 8)
        ((colorPhase opts (seed (resolveSeed opts.seed e))).2)).1 := rfl
  refine ⟨h8, h4, by rw [hscale, h4], ?_, ?_⟩
  · rw [hgrid, h8]
    exact (createImageData_shape 8 _).1
  · rw [hgrid, h8]
    exact (createImageData_shape 8 _).2

/-- C10 witness: instantiated at a record carrying `size = 0` and
`scale = 0` with the explicit seed `"d"`. -/
theorem size_scale_falsy_defaults_witness :
    ({ size := some 0, scale := some 0, seed := some [100] } : IconOptions).size = some 0 ∧
    ({ size := some 0, scale := some 0, seed := some [100] } : IconOptions).scale = some 0 ∧
    (jsOrNum (some 0) 8 = 8 ∧ jsOrNum (some 0) 4 = 4 ∧
      (createIcon [] { size := some 0, scale := some 0, seed := some [100] } zeroState).1.scale = 4 ∧
      ((createIcon [] { size := some 0, scale := some 0, seed := some [100] } zeroState).1.grid).length = 8 ∧
      ((createIcon [] { size := some 0, scale := some 0, seed := some [100] } zeroState).1.grid).map
        List.length = List.replicate 8 8) :=
  ⟨rfl, rfl,
   size_scale_falsy_defaults [] { size := some 0, scale := some 0, seed := some [100] }
     zeroState rfl rfl⟩
